import Mathlib

/-!
Shallow embedding of the appointment-booking backend's scheduling core
(`src/modules/appointment/appointment.controller.js`) and of the tenant
middleware (`src/lib/prismaWithTenant.js`).

Timestamps are JS epoch milliseconds, modelled as `Int` (JS `Date` stores a
signed millisecond count).  Database rows are Lean structures following the
Prisma schema (the migration SQL); the database itself is a record of lists,
and each Prisma query is embedded as an explicit filter/find over those
lists, translated from the `where` object of the corresponding call site.
`createdAt`/`updatedAt` bookkeeping columns are omitted; `price` (a SQL
double) only ever flows through unchanged, so it is modelled as `Int`.
Record identifiers are `cuid()` strings in the schema; they are modelled as
`Nat` (only equality of identifiers is ever used).
-/

namespace Booking

/-- JS epoch milliseconds. -/
abbrev Time := Int

/-- Prisma enum `AppointmentStatus`. -/
inductive Status where
  | PENDING | CONFIRMED | CANCELLED | COMPLETED | NO_SHOW | RESCHEDULED
deriving DecidableEq

/-- Prisma enum `AvailabilityType`. -/
inductive AvailType where
  | RECURRING | ONE_OFF
deriving DecidableEq

/-- Row of table `Service` (fields the core reads). -/
structure Service where
  id : Nat
  tenantId : Nat
  duration : Int
  price : Int
  currency : String
  active : Bool
  deletedAt : Option Time
deriving DecidableEq

/-- Row of table `Staff` (fields the core reads). -/
structure StaffRow where
  id : Nat
  tenantId : Nat
  deletedAt : Option Time
deriving DecidableEq

/-- Row of table `User` (fields the core reads; users are global, they carry
no `tenantId` column). -/
structure UserRow where
  id : Nat
  deletedAt : Option Time
deriving DecidableEq

/-- Row of table `TenantUser` (tenant membership; the appointment core never
queries this table). -/
structure TenantUserRow where
  tenantId : Nat
  userId : Nat
  role : String
deriving DecidableEq

/-- Row of table `StaffService` (composite key `staffId_serviceId`). -/
structure StaffServiceRow where
  staffId : Nat
  serviceId : Nat
deriving DecidableEq

/-- Row of table `Availability`.  `dayOfWeek`, `startTime`, `endTime`,
`startDate`, `endDate` are all nullable in the schema. -/
structure Availability where
  id : Nat
  tenantId : Nat
  staffId : Nat
  type_ : AvailType
  dayOfWeek : Option Int
  startTime : Option String
  endTime : Option String
  startDate : Option Time
  endDate : Option Time
  deletedAt : Option Time
deriving DecidableEq

/-- Row of table `TimeOff` (no `deletedAt` column exists in the schema). -/
structure TimeOff where
  id : Nat
  tenantId : Nat
  staffId : Nat
  start : Time
  end_ : Time
  reason : Option String
deriving DecidableEq

/-- Row of table `Appointment` (the SQL column `end` is spelled `end_`). -/
structure Appointment where
  id : Nat
  tenantId : Nat
  serviceId : Nat
  staffId : Nat
  clientId : Nat
  start : Time
  end_ : Time
  status : Status
  price : Int
  currency : String
  notes : Option String
  canceledAt : Option Time
deriving DecidableEq

/-- Row of table `Notification` (payload reduced to the appointment id it
references; JSON payload contents are irrelevant to every claim). -/
structure NotificationRow where
  id : Nat
  tenantId : Nat
  userId : Nat
  type_ : String
  channel : String
  payloadApptId : Nat
  status : String
deriving DecidableEq

/-- The relational store: one list per table the core touches. -/
structure DB where
  services : List Service
  staffs : List StaffRow
  users : List UserRow
  tenantUsers : List TenantUserRow
  staffServices : List StaffServiceRow
  availabilities : List Availability
  timeOffs : List TimeOff
  appointments : List Appointment
  notifications : List NotificationRow
deriving DecidableEq

/-- `ApiError(status, message)` from `src/utils/apiError.js`. -/
structure ApiError where
  status : Nat
  message : String
deriving DecidableEq

instance {ε α : Type} [DecidableEq ε] [DecidableEq α] : DecidableEq (Except ε α) := fun x y =>
  match x, y with
  | .error e, .error f =>
    if h : e = f then .isTrue (by rw [h]) else .isFalse (by intro hh; cases hh; exact h rfl)
  | .error _, .ok _ => .isFalse (by intro hh; cases hh)
  | .ok _, .error _ => .isFalse (by intro hh; cases hh)
  | .ok a, .ok b =>
    if h : a = b then .isTrue (by rw [h]) else .isFalse (by intro hh; cases hh; exact h rfl)

/-! ### JS `Date` UTC accessors

JS `Date.prototype.getUTCDay/getUTCHours/getUTCMinutes` on a millisecond
timestamp `t`: day 0 of the epoch (1970-01-01) was a Thursday (= 4), and the
ECMA-262 `modulo` operation always yields a non-negative result, which is
`Int.emod`; `floor` division is `Int.fdiv`. -/

/-- `Day(t)` of ECMA-262: the UTC calendar day number of a timestamp. -/
def utcDayNumber (t : Time) : Int := t.fdiv 86400000

/-- `Date.prototype.getUTCDay` (0 = Sunday .. 6 = Saturday). -/
def jsGetUTCDay (t : Time) : Int := (utcDayNumber t + 4).emod 7

/-- `Date.prototype.getUTCHours`. -/
def jsGetUTCHours (t : Time) : Int := (t.fdiv 3600000).emod 24

/-- `Date.prototype.getUTCMinutes`. -/
def jsGetUTCMinutes (t : Time) : Int := (t.fdiv 60000).emod 60

/-- `getUTCHours() * 60 + getUTCMinutes()` as computed at lines 37-38 of the
controller. -/
def minutesOfDay (t : Time) : Int := jsGetUTCHours t * 60 + jsGetUTCMinutes t

/-! ### JS falsiness and `Number` on the values this code meets -/

/-- JS falsiness of a nullable integer column: `null`/`undefined` and `0`
are falsy. -/
def falsyInt : Option Int → Bool
  | none => true
  | some n => n == 0

/-- JS falsiness of a nullable text column: `null`/`undefined` and `""` are
falsy. -/
def falsyStr : Option String → Bool
  | none => true
  | some s => s == ""

/-- Numeric value of a digit string (most significant digit first). -/
def digitsVal (cs : List Char) : Nat :=
  cs.foldl (fun n c => n * 10 + (c.toNat - 48)) 0

/-- JS `Number(s)` restricted to the strings an `"HH:MM"` split produces,
over the string's character list: `Number("") = 0`, a digit string converts
to its value, anything else is `NaN` (returned as `none`).  (The full JS
`Number` also accepts signs, floats, exponents and hex literals; no
`"HH:MM"` piece of that shape is relevant to any claim.) -/
def jsNumberChars (cs : List Char) : Option Int :=
  match cs with
  | [] => some 0
  | _ =>
    if cs.all Char.isDigit then some (Int.ofNat (digitsVal cs)) else none

/-- `s.split(":")` over the string's character list (second argument is the
accumulator for the piece being read, most recent character first). -/
def splitColon : List Char → List Char → List (List Char)
  | [], acc => [acc.reverse]
  | c :: rest, acc =>
    if c = ':' then acc.reverse :: splitColon rest []
    else splitColon rest (c :: acc)

/-- `hhmmToMinutes` (controller lines 20-25), as
`hhmm.split(":").map(Number)` destructured into `[h, m]`.  The JS function
returns `null` for a falsy argument or when either split piece is `NaN`;
when the string has no `":"` at all the destructured `m` is `undefined`,
the `Number.isNaN` guards pass, and the function returns `NaN` — a `NaN`
return makes both comparisons at line 44 false exactly as the `null` check
at line 41 does, so both outcomes are collapsed into `none` here. -/
def hhmmToMinutes (hhmm : Option String) : Option Int :=
  match hhmm with
  | none => none
  | some s =>
    if s = "" then none
    else
      let parts := splitColon s.data []
      match jsNumberChars (parts.headD []) with
      | none => none
      | some h =>
        match parts.get? 1 with
        | none => none
        | some mPart =>
          match jsNumberChars mPart with
          | none => none
          | some m => some (h * 60 + m)

/-- `isWithinRecurringAvailability` (controller lines 31-45).  Note the
guard `!av.dayOfWeek || !av.startTime || !av.endTime` uses JS falsiness, so
`dayOfWeek = 0` (Sunday) is treated like a missing field. -/
def isWithinRecurringAvailability (av : Availability) (startDate endDate : Time) : Bool :=
  if falsyInt av.dayOfWeek || falsyStr av.startTime || falsyStr av.endTime then false
  else if jsGetUTCDay startDate ≠ av.dayOfWeek.getD 0 then false
  else
    match hhmmToMinutes av.startTime, hhmmToMinutes av.endTime with
    | some avStart, some avEnd =>
      avStart ≤ minutesOfDay startDate && minutesOfDay endDate ≤ avEnd
    | _, _ => false

/-- `isWithinOneOffAvailability` (controller lines 51-56).  A Prisma `Date`
value is an object and hence always truthy, so the falsy guard only fires
on `null` columns. -/
def isWithinOneOffAvailability (av : Availability) (startDate endDate : Time) : Bool :=
  match av.startDate, av.endDate with
  | some avStart, some avEnd => avStart ≤ startDate && endDate ≤ avEnd
  | _, _ => false

/-- The `prisma.availability.findMany` query of controller line 65-67:
`where: { staffId, tenantId, deletedAt: null }`. -/
def availQuery (db : DB) (staffId tenantId : Nat) : List Availability :=
  db.availabilities.filter fun a =>
    a.staffId == staffId && a.tenantId == tenantId && a.deletedAt == none

/-- The `prisma.timeOff.findMany` query of controller lines 68-77:
`where: { staffId, tenantId, OR: [{ start: { lte: endDate }, end: { gte:
startDate } }] }`. -/
def timeOffQuery (db : DB) (staffId tenantId : Nat) (startDate endDate : Time) : List TimeOff :=
  db.timeOffs.filter fun t =>
    t.staffId == staffId && t.tenantId == tenantId &&
      (decide (t.start ≤ endDate) && decide (startDate ≤ t.end_))

/-- `tf.reason || "Time off"` (controller line 84): JS `||` falls through on
the falsy values `null` and `""`. -/
def reasonOrDefault (tf : TimeOff) : String :=
  match tf.reason with
  | none => "Time off"
  | some r => if r = "" then "Time off" else r

/-- Error message of controller line 85. -/
def timeOffMessage (tf : TimeOff) : String :=
  "Staff is on time off (" ++ reasonOrDefault tf ++ ") during requested time"

/-- The availability predicate applied by `availabilities.some` at
controller lines 93-100 (the enum has exactly the two handled variants, so
the trailing `return false` is unreachable). -/
def availMatches (av : Availability) (startDate endDate : Time) : Bool :=
  match av.type_ with
  | .ONE_OFF => isWithinOneOffAvailability av startDate endDate
  | .RECURRING => isWithinRecurringAvailability av startDate endDate

/-- `validateStaffAvailabilityAndTimeOff` (controller lines 62-105). -/
def validateStaffAvailabilityAndTimeOff (db : DB) (tenantId staffId : Nat)
    (startDate endDate : Time) : Except ApiError Unit :=
  let timeOffs := timeOffQuery db staffId tenantId startDate endDate
  match timeOffs with
  | tf :: _ => .error ⟨409, timeOffMessage tf⟩
  | [] =>
    let availabilities := availQuery db staffId tenantId
    if availabilities.isEmpty then .ok ()
    else if availabilities.any (fun av => availMatches av startDate endDate) then .ok ()
    else .error ⟨409, "Requested time is outside staff availability"⟩

/-! ### Lookups issued by `createAppointment` (controller lines 132-152) -/

/-- `prisma.service.findFirst({ where: { id, tenantId, active: true,
deletedAt: null } })`. -/
def serviceLookup (db : DB) (tenantId serviceId : Nat) : Option Service :=
  db.services.find? fun s =>
    s.id == serviceId && s.tenantId == tenantId && s.active && s.deletedAt == none

/-- `prisma.staff.findFirst({ where: { id, tenantId, deletedAt: null } })`. -/
def staffLookup (db : DB) (tenantId staffId : Nat) : Option StaffRow :=
  db.staffs.find? fun s =>
    s.id == staffId && s.tenantId == tenantId && s.deletedAt == none

/-- `prisma.user.findFirst({ where: { id: clientId, deletedAt: null } })` —
no `tenantId` and no membership condition appears in this filter. -/
def clientLookup (db : DB) (clientId : Nat) : Option UserRow :=
  db.users.find? fun u => u.id == clientId && u.deletedAt == none

/-- `prisma.staffService.findUnique({ where: { staffId_serviceId: ... } })`. -/
def assignedLookup (db : DB) (staffId serviceId : Nat) : Option StaffServiceRow :=
  db.staffServices.find? fun ss => ss.staffId == staffId && ss.serviceId == serviceId

/-- The staff double-booking query (controller lines 164-173 and, with the
`id: { not: id }` exclusion, lines 327-335): first appointment in the tenant
for this staff with status `PENDING` or `CONFIRMED` whose interval strictly
overlaps (`start < candidateEnd AND end > candidateStart`).  `exclude`
is `none` at the create site and `some id` at the reschedule site. -/
def staffConflictLookup (db : DB) (tenantId staffId : Nat) (startDate endDate : Time)
    (exclude : Option Nat) : Option Appointment :=
  db.appointments.find? fun a =>
    a.tenantId == tenantId && a.staffId == staffId &&
      (match exclude with | some i => a.id != i | none => true) &&
      (a.status == .PENDING || a.status == .CONFIRMED) &&
      (decide (a.start < endDate) && decide (startDate < a.end_))

/-- The client double-booking query (controller lines 177-186 and
339-347), same shape keyed on `clientId`. -/
def clientConflictLookup (db : DB) (tenantId clientId : Nat) (startDate endDate : Time)
    (exclude : Option Nat) : Option Appointment :=
  db.appointments.find? fun a =>
    a.tenantId == tenantId && a.clientId == clientId &&
      (match exclude with | some i => a.id != i | none => true) &&
      (a.status == .PENDING || a.status == .CONFIRMED) &&
      (decide (a.start < endDate) && decide (startDate < a.end_))

/-- The message of controller line 157. -/
def durationError (d : Int) : ApiError :=
  ⟨400, "End time must be exactly " ++ toString d ++ " minutes after start"⟩

/-- Request body of `POST /appointment` (`req.body` at line 115).  `none`
stands for an absent/falsy field; `start`/`end` carry the parsed instant of
a date string that parses (a string failing the `Number.isNaN` check at
line 124 has no representation here — no claim concerns it). -/
structure CreateBody where
  serviceId : Option Nat
  staffId : Option Nat
  clientId : Option Nat
  start : Option Time
  end_ : Option Time
  notes : Option String
deriving DecidableEq

/-- `notes: notes || null` (controller line 201): falsy notes become null. -/
def notesOrNull : Option String → Option String
  | none => none
  | some s => if s = "" then none else some s

/-- `createAppointment` (controller lines 114-224).  `now` is the wall
clock read at line 129; `newApptId`/`newNotifId` are the identifiers the
store would mint for the two inserted rows.  An `Except.error` result is a
thrown `ApiError`: the function aborts before the transaction, so nothing
is written — only the `.ok` branch carries a new database, holding exactly
the appointment insert and the notification insert of the transaction at
lines 190-221. -/
def createAppointment (db : DB) (tenantId : Nat) (now : Time) (body : CreateBody)
    (newApptId newNotifId : Nat) : Except ApiError (Appointment × DB) :=
  match body.serviceId, body.staffId, body.clientId, body.start, body.end_ with
  | some serviceId, some staffId, some clientId, some startDate, some endDate =>
    if endDate ≤ startDate then .error ⟨400, "end must be after start"⟩
    else if startDate < now then .error ⟨400, "Cannot create appointments in the past"⟩
    else match serviceLookup db tenantId serviceId with
    | none => .error ⟨404, "Service not found"⟩
    | some service =>
      match staffLookup db tenantId staffId with
      | none => .error ⟨404, "Staff not found"⟩
      | some _ =>
        match clientLookup db clientId with
        | none => .error ⟨404, "Client not found"⟩
        | some _ =>
          match assignedLookup db staffId serviceId with
          | none => .error ⟨400, "Selected staff does not provide this service"⟩
          | some _ =>
            if startDate + service.duration * 60000 ≠ endDate then
              .error (durationError service.duration)
            else match validateStaffAvailabilityAndTimeOff db tenantId staffId startDate endDate with
            | .error e => .error e
            | .ok _ =>
              match staffConflictLookup db tenantId staffId startDate endDate none with
              | some _ => .error ⟨409, "Staff already booked for this time slot"⟩
              | none =>
                match clientConflictLookup db tenantId clientId startDate endDate none with
                | some _ => .error ⟨409, "Client already has an appointment in this time slot"⟩
                | none =>
                  let appt : Appointment :=
                    { id := newApptId, tenantId := tenantId, serviceId := serviceId
                      staffId := staffId, clientId := clientId
                      start := startDate, end_ := endDate
                      price := service.price, currency := service.currency
                      notes := notesOrNull body.notes, status := .PENDING
                      canceledAt := none }
                  let notif : NotificationRow :=
                    { id := newNotifId, tenantId := tenantId, userId := clientId
                      type_ := "booking_created", channel := "email"
                      payloadApptId := newApptId, status := "queued" }
                  .ok (appt, { db with
                    appointments := db.appointments ++ [appt]
                    notifications := db.notifications ++ [notif] })
  | _, _, _, _, _ =>
    .error ⟨400, "Missing required fields: serviceId, staffId, clientId, start, end"⟩

/-! ### `updateAppointment` (controller lines 294-364) -/

/-- `req.user` as read by `requireTenantRole`. -/
structure ReqUser where
  role : Option String
  tenantRole : Option String
deriving DecidableEq

/-- `requireTenantRole` (controller lines 10-15) as a boolean: the caller
passes when either `user?.role` or `user?.tenantRole` is in the allowed
list. -/
def requireTenantRole (user : ReqUser) (roles : List String) : Bool :=
  (match user.role with | some r => roles.contains r | none => false) ||
  (match user.tenantRole with | some r => roles.contains r | none => false)

/-- `prisma.appointment.findFirst({ where: { id, tenantId } })` (lines
299-301, also `getAppointment`). -/
def apptLookup (db : DB) (tenantId id : Nat) : Option Appointment :=
  db.appointments.find? fun a => a.id == id && a.tenantId == tenantId

/-- `prisma.service.findFirst({ where: { id: appointment.serviceId } })`
(line 316) — unlike the create-site lookup this one has no tenant, `active`
or `deletedAt` condition. -/
def rescheduleServiceLookup (db : DB) (serviceId : Nat) : Option Service :=
  db.services.find? fun s => s.id == serviceId

/-- The message of controller line 320. -/
def rescheduleDurationError (d : Int) : ApiError :=
  ⟨400, "Rescheduled end must be exactly " ++ toString d ++ " minutes after start"⟩

/-- Request body of `PATCH /appointment/:id` (line 297). -/
structure UpdateBody where
  status : Option Status
  start : Option Time
  end_ : Option Time
  notes : Option String
deriving DecidableEq

/-- The `prisma.appointment.update` of lines 351-361: `where: { id }` only;
`status ?? undefined` and `notes ?? undefined` leave the column unchanged
when absent, and `start ? newStart : undefined` keys both interval columns
on `start` being supplied. -/
def applyApptUpdate (db : DB) (id : Nat) (body : UpdateBody)
    (newStart newEnd : Time) : DB :=
  { db with appointments := db.appointments.map fun a =>
      if a.id == id then
        { a with
          status := body.status.getD a.status
          start := if body.start.isSome then newStart else a.start
          end_ := if body.start.isSome then newEnd else a.end_
          notes := match body.notes with | some v => some v | none => a.notes }
      else a }

/-- `updateAppointment` (controller lines 294-364).  Returns the updated
row together with the new database.  When neither `start` nor `end` is
supplied the whole reschedule block (lines 307-349) is skipped. -/
def updateAppointment (db : DB) (tenantId : Nat) (user : ReqUser) (id : Nat)
    (body : UpdateBody) (now : Time) : Except ApiError (Appointment × DB) :=
  if !requireTenantRole user ["OWNER", "ADMIN", "STAFF"] then
    .error ⟨403, "Forbidden – insufficient permissions"⟩
  else match apptLookup db tenantId id with
  | none => .error ⟨404, "Appointment not found"⟩
  | some appointment =>
    if body.start.isSome || body.end_.isSome then
      match body.start, body.end_ with
      | some newStart, some newEnd =>
        if newEnd ≤ newStart then .error ⟨400, "end must be after start"⟩
        else if newStart < now then .error ⟨400, "Cannot reschedule to the past"⟩
        else match rescheduleServiceLookup db appointment.serviceId with
        | none => .error ⟨500, "Associated service not found"⟩
        | some service =>
          if newStart + service.duration * 60000 ≠ newEnd then
            .error (rescheduleDurationError service.duration)
          else match validateStaffAvailabilityAndTimeOff db tenantId appointment.staffId newStart newEnd with
          | .error e => .error e
          | .ok _ =>
            match staffConflictLookup db tenantId appointment.staffId newStart newEnd (some id) with
            | some _ => .error ⟨409, "Staff already booked at the new time"⟩
            | none =>
              match clientConflictLookup db tenantId appointment.clientId newStart newEnd (some id) with
              | some _ => .error ⟨409, "Client already has appointment at the new time"⟩
              | none =>
                let db2 := applyApptUpdate db id body newStart newEnd
                match apptLookup db2 tenantId id with
                | some updated => .ok (updated, db2)
                | none => .error ⟨404, "Appointment not found"⟩
      | _, _ => .error ⟨400, "Both start and end required for reschedule"⟩
    else
      let db2 := applyApptUpdate db id body appointment.start appointment.end_
      match apptLookup db2 tenantId id with
      | some updated => .ok (updated, db2)
      | none => .error ⟨404, "Appointment not found"⟩

/-- The message of controller line 379. -/
def cancelNotFoundError : ApiError := ⟨404, "Appointment not found or already cancelled"⟩

/-- The `updateMany` filter of controller line 375. -/
def cancelPred (tenantId id : Nat) (a : Appointment) : Bool :=
  a.id == id && a.tenantId == tenantId && a.status != .CANCELLED

/-- `cancelAppointment` (controller lines 371-384): one `updateMany` with
`where: { id, tenantId, status: { not: "CANCELLED" } }` setting
`status: "CANCELLED", canceledAt: new Date()`; a zero row count is thrown
as a 404. Returns the affected row count and the new database. -/
def cancelAppointment (db : DB) (tenantId id : Nat) (now : Time) :
    Except ApiError (Nat × DB) :=
  let count := (db.appointments.filter (cancelPred tenantId id)).length
  if count == 0 then .error cancelNotFoundError
  else
    let updated := db.appointments.map (fun a =>
      if cancelPred tenantId id a then
        { a with status := .CANCELLED, canceledAt := some now }
      else a)
    .ok (count, { db with appointments := updated })

/-! ### Tenant Context Guard (`src/lib/prismaWithTenant.js`) -/

/-- A Prisma `where`/`data` object as the middleware sees it: the
`tenantId` field (absent or present) plus the remaining fields, which the
middleware never touches and which are kept opaque. -/
structure FilterObj where
  tenantId : Option Nat
  rest : List (String × Int)
deriving DecidableEq

/-- The `params` object of a Prisma middleware call. -/
structure Params where
  model : String
  action : String
  whereObj : FilterObj
  data : FilterObj
deriving DecidableEq

/-- `tenantModels` (prismaWithTenant.js lines 6-9). -/
def tenantModels : List String :=
  ["Appointment", "Service", "Staff", "Availability", "TimeOff",
   "StaffService", "Payment", "Notification", "Subscription", "Location"]

/-- The middleware body installed by `prismaWithTenant(tenantId)` (lines
5-23): for tenant-scoped models, `params.args.where = { ...where, tenantId }`
on the find actions, `params.args.data.tenantId = tenantId` on `create`,
and the same `where` overwrite on the update/delete actions; every other
call passes through unchanged.  The three `if`s of the source are applied
in sequence. -/
def prismaWithTenant (tenantId : Nat) (params : Params) : Params :=
  if tenantModels.contains params.model then
    let p1 :=
      if ["findMany", "findFirst", "findUnique"].contains params.action then
        { params with whereObj := { params.whereObj with tenantId := some tenantId } }
      else params
    let p2 :=
      if p1.action == "create" then
        { p1 with data := { p1.data with tenantId := some tenantId } }
      else p1
    if ["update", "delete", "updateMany", "deleteMany"].contains p2.action then
      { p2 with whereObj := { p2.whereObj with tenantId := some tenantId } }
    else p2
  else params

/-! ### Concrete fixtures used by the witness theorems -/

/-- A 30-minute, 50-USD active service of tenant 1. -/
def svcEx : Service := ⟨1, 1, 30, 50, "USD", true, none⟩

/-- A staff member of tenant 1. -/
def stfEx : StaffRow := ⟨2, 1, none⟩

/-- A non-deleted user with no tenant membership anywhere. -/
def usrEx : UserRow := ⟨3, none⟩

/-- A database in which staff 2 of tenant 1 provides service 1 and user 3
exists; no availabilities, time-offs or appointments. -/
def dbEx : DB := ⟨[svcEx], [stfEx], [usrEx], [], [⟨2, 1⟩], [], [], [], []⟩

/-- A well-formed create request: 2001-09-09 01:46:40 UTC for 30 minutes. -/
def bodyEx : CreateBody := ⟨some 1, some 2, some 3, some 1000000000000, some 1000001800000, none⟩

/-- The appointment `createAppointment dbEx 1 0 bodyEx 10 11` inserts. -/
def apptEx : Appointment :=
  ⟨10, 1, 1, 2, 3, 1000000000000, 1000001800000, .PENDING, 50, "USD", none, none⟩

/-- The database state after that successful booking. -/
def dbExAfter : DB :=
  { dbEx with
    appointments := [apptEx]
    notifications := [⟨11, 1, 3, "booking_created", "email", 10, "queued"⟩] }

/-- A RECURRING availability record for Sunday (`dayOfWeek = 0`),
09:00-12:00. -/
def avSundayEx : Availability :=
  ⟨1, 1, 2, .RECURRING, some 0, some "09:00", some "12:00", none, none, none⟩

/-- 1970-01-04 (a Sunday) 09:00 UTC. -/
def sundayStartEx : Time := 291600000

/-- 1970-01-04 (a Sunday) 09:30 UTC. -/
def sundayEndEx : Time := 293400000

/-- A RECURRING availability record for Monday (`dayOfWeek = 1`),
00:00-23:59. -/
def avMondayEx : Availability :=
  ⟨1, 1, 2, .RECURRING, some 1, some "00:00", some "23:59", none, none, none⟩

/-- 1970-01-05 (a Monday) 23:00 UTC. -/
def mondayLateEx : Time := 428400000

/-- 1970-01-06 (a Tuesday) 00:30 UTC. -/
def tuesdayEarlyEx : Time := 433800000

/-- C5 (code bug, JS falsy-zero): a RECURRING record with `dayOfWeek = 0`
(Sunday, per the schema comment `0..6 (Sunday..Saturday)` at controller
line 33 and the spec's `0=Sunday..6=Saturday`) can never match.  At a
Sunday 09:00-09:30 candidate against a Sunday 09:00-12:00 record, the
claimed iff-conditions all hold — the day-of-week matches and both
endpoints' minutes lie inside `[540, 720]` — yet
`isWithinRecurringAvailability` returns `false`, because the guard
`!av.dayOfWeek` at line 32 treats the integer 0 as a missing field. -/
theorem recurring_sunday_zero_bug_c5 :
    avSundayEx.dayOfWeek = some 0 ∧
    jsGetUTCDay sundayStartEx = 0 ∧
    hhmmToMinutes avSundayEx.startTime = some 540 ∧
    hhmmToMinutes avSundayEx.endTime = some 720 ∧
    540 ≤ minutesOfDay sundayStartEx ∧ minutesOfDay sundayStartEx ≤ 720 ∧
    540 ≤ minutesOfDay sundayEndEx ∧ minutesOfDay sundayEndEx ≤ 720 ∧
    isWithinRecurringAvailability avSundayEx sundayStartEx sundayEndEx = false := by
  decide

/-- C6 counterexample: a candidate interval from Monday 23:00 UTC to
Tuesday 00:30 UTC ends on a later UTC calendar day than it starts, yet the
Monday 00:00-23:59 RECURRING record accepts it — the recurring check
compares only each endpoint's own minutes-since-midnight. -/
theorem recurring_cross_midnight_counterexample_c6 :
    utcDayNumber mondayLateEx < utcDayNumber tuesdayEarlyEx ∧
    avMondayEx.type_ = .RECURRING ∧
    isWithinRecurringAvailability avMondayEx mondayLateEx tuesdayEarlyEx = true := by
  decide

/-- C6 (amended): a candidate interval whose end falls on a later UTC
calendar day than its start is NOT always rejected by the recurring check;
such an interval passes exactly when the usual per-endpoint conditions
hold — the record's fields are non-falsy, the start's UTC day-of-week
equals the record's `dayOfWeek`, both `HH:MM` bounds parse, and the
start's (resp. end's) own minutes-since-midnight lie above `startTime`
(resp. below `endTime`) — the end's calendar day is never examined. -/
theorem recurring_cross_midnight_c6 :
    ∀ (av : Availability) (s e : Time), utcDayNumber s < utcDayNumber e →
      (isWithinRecurringAvailability av s e = true ↔
        (falsyInt av.dayOfWeek = false ∧ falsyStr av.startTime = false ∧
         falsyStr av.endTime = false ∧ jsGetUTCDay s = av.dayOfWeek.getD 0 ∧
         ∃ a b, hhmmToMinutes av.startTime = some a ∧ hhmmToMinutes av.endTime = some b ∧
           a ≤ minutesOfDay s ∧ minutesOfDay e ≤ b)) := by
  intro av s e _
  unfold isWithinRecurringAvailability
  cases hF : (falsyInt av.dayOfWeek || falsyStr av.startTime || falsyStr av.endTime) with
  | true =>
    rw [if_pos rfl]
    simp only [Bool.or_eq_true] at hF
    constructor
    · intro h; cases h
    · rintro ⟨h1, h2, h3, -⟩
      rcases hF with (h | h) | h
      · exact absurd (h1.symm.trans h) (by decide)
      · exact absurd (h2.symm.trans h) (by decide)
      · exact absurd (h3.symm.trans h) (by decide)
  | false =>
    rw [if_neg Bool.false_ne_true]
    simp only [Bool.or_eq_false_iff] at hF
    obtain ⟨⟨h1, h2⟩, h3⟩ := hF
    by_cases hd : jsGetUTCDay s = av.dayOfWeek.getD 0
    · rw [if_neg (by simp [hd])]
      cases hS : hhmmToMinutes av.startTime with
      | none => simp [hS, h1, h2, h3, hd]
      | some a =>
        cases hE : hhmmToMinutes av.endTime with
        | none => simp [hS, hE, h1, h2, h3, hd]
        | some b => simp [hS, hE, h1, h2, h3, hd]
    · rw [if_pos hd]
      constructor
      · intro h; cases h
      · rintro ⟨-, -, -, hdd, -⟩; exact absurd hdd hd

/-- Witness for C6 (amended) at the cross-midnight fixture. -/
theorem recurring_cross_midnight_c6_witness :
    isWithinRecurringAvailability avMondayEx mondayLateEx tuesdayEarlyEx = true :=
  (recurring_cross_midnight_c6 avMondayEx mondayLateEx tuesdayEarlyEx (by decide)).mpr
    ⟨by decide, by decide, by decide, by decide,
     ⟨0, 1439, by decide, by decide, by decide, by decide⟩⟩


/-- A ONE_OFF availability record for staff 2 of tenant 1 covering the
epoch interval [0, 100000000]. -/
def avOneOffEx : Availability :=
  ⟨4, 1, 2, .ONE_OFF, none, none, none, some 0, some 100000000, none⟩

/-- `dbEx` with that one availability record. -/
def dbAvailEx : DB := { dbEx with availabilities := [avOneOffEx] }

/-- A time-off for staff 2 of tenant 1 over [0, 10000000]. -/
def timeOffEx : TimeOff := ⟨5, 1, 2, 0, 10000000, some "Vacation"⟩

/-- `dbEx` with both the time-off and a covering availability record. -/
def dbTimeOffEx : DB :=
  { dbEx with timeOffs := [timeOffEx], availabilities := [avOneOffEx] }

/-- C4: the blackout check blocks iff some TimeOff row of that staff and
tenant satisfies `record.start <= candidate.end AND record.end >=
candidate.start`; a block is reported as a 409 carrying the first
overlapping record's reason (or the default "Time off"), and it is raised
for EVERY availability table — in particular also when a matching
Availability window covers the interval — because the time-off branch runs
before availability is consulted.  In the unblocked case the checker can
only answer ok or the outside-availability rejection. -/
theorem timeoff_blackout_c4 :
    ∀ (db : DB) (tid sid : Nat) (st en : Time),
      ((∃ t ∈ db.timeOffs, t.staffId = sid ∧ t.tenantId = tid ∧ t.start ≤ en ∧ st ≤ t.end_) →
        ∃ tf rest, timeOffQuery db sid tid st en = tf :: rest ∧
          ∀ avs : List Availability,
            validateStaffAvailabilityAndTimeOff { db with availabilities := avs } tid sid st en =
              .error ⟨409, timeOffMessage tf⟩) ∧
      ((¬ ∃ t ∈ db.timeOffs, t.staffId = sid ∧ t.tenantId = tid ∧ t.start ≤ en ∧ st ≤ t.end_) →
        validateStaffAvailabilityAndTimeOff db tid sid st en = .ok () ∨
        validateStaffAvailabilityAndTimeOff db tid sid st en =
          .error ⟨409, "Requested time is outside staff availability"⟩) := by
  intro db tid sid st en
  constructor
  · rintro ⟨t, htmem, hstf, htid, h1, h2⟩
    cases hq : timeOffQuery db sid tid st en with
    | nil =>
      exfalso
      have := List.filter_eq_nil_iff.mp hq t htmem
      simp [hstf, htid, h1, h2] at this
    | cons tf rest =>
      refine ⟨tf, rest, rfl, fun avs => ?_⟩
      unfold validateStaffAvailabilityAndTimeOff
      have hq2 : timeOffQuery { db with availabilities := avs } sid tid st en
          = tf :: rest := hq
      rw [hq2]
  · intro hno
    unfold validateStaffAvailabilityAndTimeOff
    have hq : timeOffQuery db sid tid st en = [] := by
      apply List.filter_eq_nil_iff.mpr
      intro t htmem
      intro hpred
      apply hno
      refine ⟨t, htmem, ?_, ?_, ?_, ?_⟩ <;> simp_all
    rw [hq]
    by_cases hA : (availQuery db sid tid).isEmpty
    · rw [if_pos hA]; left; rfl
    · rw [if_neg hA]
      by_cases hAny : (availQuery db sid tid).any (fun av => availMatches av st en)
      · rw [if_pos hAny]; left; rfl
      · rw [if_neg hAny]; right; rfl

/-- C3: with no blackout in the way (the time-off query returns no rows),
the availability check permits any interval when the staff has no
non-deleted Availability rows in the tenant; when rows exist, it permits
the interval iff at least one row (via its RECURRING or ONE_OFF
containment test) matches, and otherwise rejects with the 409
outside-availability error. -/
theorem availability_check_c3 :
    ∀ (db : DB) (tid sid : Nat) (st en : Time),
      timeOffQuery db sid tid st en = [] →
      ((availQuery db sid tid = [] →
          validateStaffAvailabilityAndTimeOff db tid sid st en = .ok ()) ∧
       (availQuery db sid tid ≠ [] →
          (validateStaffAvailabilityAndTimeOff db tid sid st en = .ok () ↔
            ∃ av ∈ availQuery db sid tid, availMatches av st en = true) ∧
          (¬ (∃ av ∈ availQuery db sid tid, availMatches av st en = true) →
            validateStaffAvailabilityAndTimeOff db tid sid st en =
              .error ⟨409, "Requested time is outside staff availability"⟩))) := by
  intro db tid sid st en hT
  unfold validateStaffAvailabilityAndTimeOff
  rw [hT]
  constructor
  · intro hA
    rw [if_pos (List.isEmpty_iff.mpr hA)]
  · intro hA
    rw [if_neg (fun h => hA (List.isEmpty_iff.mp h))]
    constructor
    · by_cases hAny : (availQuery db sid tid).any (fun av => availMatches av st en)
      · rw [if_pos hAny]
        simp only [List.any_eq_true] at hAny
        exact ⟨fun _ => hAny, fun _ => rfl⟩
      · rw [if_neg hAny]
        constructor
        · intro h; cases h
        · intro hex
          exfalso
          exact hAny (List.any_eq_true.mpr hex)
    · intro hnex
      rw [if_neg (fun h => hnex (List.any_eq_true.mp h))]

/-- Witness for C4: staff 2 has time-off [0, 10000000] with reason
"Vacation"; a 1000-2000 candidate is blocked with that reason for every
availability table. -/
theorem timeoff_blackout_c4_witness :
    ∃ tf rest, timeOffQuery dbTimeOffEx 2 1 1000 2000 = tf :: rest ∧
      ∀ avs : List Availability,
        validateStaffAvailabilityAndTimeOff { dbTimeOffEx with availabilities := avs } 1 2 1000 2000 =
          .error ⟨409, timeOffMessage tf⟩ :=
  (timeoff_blackout_c4 dbTimeOffEx 1 2 1000 2000).1
    ⟨timeOffEx, by decide, by decide, by decide, by decide, by decide⟩

/-- Witness for C3 at a database with one covering ONE_OFF record. -/
theorem availability_check_c3_witness :
    (validateStaffAvailabilityAndTimeOff dbAvailEx 1 2 1000 2000 = .ok () ↔
      ∃ av ∈ availQuery dbAvailEx 2 1, availMatches av 1000 2000 = true) ∧
    validateStaffAvailabilityAndTimeOff dbEx 1 2 1000 2000 = .ok () :=
  ⟨((availability_check_c3 dbAvailEx 1 2 1000 2000 (by decide)).2 (by decide)).1,
   (availability_check_c3 dbEx 1 2 1000 2000 (by decide)).1 (by decide)⟩

/-- C8: For every data-access call passing through the Tenant Context
Guard: on a tenant-scoped model, the seven filter actions get their
`where.tenantId` overwritten with the guard's tenant (other filter fields
untouched) and `create` gets its payload `tenantId` overwritten; a call on
a non-tenant model passes through unchanged. -/
theorem tenantGuard_fences_c8 :
    ∀ (tid : Nat) (p : Params),
      (p.model ∉ tenantModels → prismaWithTenant tid p = p) ∧
      (p.model ∈ tenantModels →
        (p.action ∈ ["findMany", "findFirst", "findUnique", "update", "delete",
            "updateMany", "deleteMany"] →
          (prismaWithTenant tid p).whereObj.tenantId = some tid ∧
          (prismaWithTenant tid p).whereObj.rest = p.whereObj.rest ∧
          (prismaWithTenant tid p).model = p.model ∧
          (prismaWithTenant tid p).action = p.action) ∧
        (p.action = "create" →
          (prismaWithTenant tid p).data.tenantId = some tid ∧
          (prismaWithTenant tid p).data.rest = p.data.rest ∧
          (prismaWithTenant tid p).whereObj = p.whereObj)) := by
  intro tid p
  refine ⟨fun hm => ?_, fun hm => ⟨fun ha => ?_, fun ha => ?_⟩⟩
  · simp [prismaWithTenant, hm]
  · simp only [List.mem_cons, List.not_mem_nil, or_false] at ha
    rcases ha with h | h | h | h | h | h | h <;>
      simp [prismaWithTenant, hm, h]
  · simp [prismaWithTenant, hm, ha]

/-- Witness for C8 at a concrete `findMany` call on `Appointment` whose
caller-supplied filter carries the wrong tenant. -/
theorem tenantGuard_fences_c8_witness :
    (prismaWithTenant 5 ⟨"Appointment", "findMany", ⟨some 99, [("staffId", 2)]⟩, ⟨none, []⟩⟩).whereObj.tenantId
      = some 5 := by
  have h := (tenantGuard_fences_c8 5
    ⟨"Appointment", "findMany", ⟨some 99, [("staffId", 2)]⟩, ⟨none, []⟩⟩).2
    (by decide) |>.1 (by decide)
  exact h.1

/-- The cancelled counterpart of `apptEx`, stamped at time 777. -/
def dbCancelledEx : DB :=
  { dbExAfter with
    appointments := [{ apptEx with status := .CANCELLED, canceledAt := some 777 }] }

/-- C7: `cancelAppointment` fails with the 404 "not found or already
cancelled" error exactly when no appointment row matches id + tenant with a
non-CANCELLED status (covering missing, cross-tenant, and
already-cancelled targets); on success every matching row is CANCELLED
with the cancellation time stamped, and a second cancellation of the same
appointment fails. -/
theorem cancel_idempotent_c7 :
    ∀ (db : DB) (tid id : Nat) (now : Time),
      ((¬ ∃ a ∈ db.appointments, a.id = id ∧ a.tenantId = tid ∧ a.status ≠ Status.CANCELLED) ↔
        cancelAppointment db tid id now = .error cancelNotFoundError) ∧
      (∀ n db', cancelAppointment db tid id now = .ok (n, db') →
        (∀ a ∈ db'.appointments, a.id = id → a.tenantId = tid → a.status = Status.CANCELLED) ∧
        (∀ a ∈ db.appointments, a.id = id → a.tenantId = tid → a.status ≠ Status.CANCELLED →
          { a with status := Status.CANCELLED, canceledAt := some now } ∈ db'.appointments) ∧
        (∀ now2 : Time, cancelAppointment db' tid id now2 = .error cancelNotFoundError)) := by
  intro db tid id now
  have hpred : ∀ a : Appointment, cancelPred tid id a = true ↔
      (a.id = id ∧ a.tenantId = tid ∧ a.status ≠ Status.CANCELLED) := by
    intro a
    simp [cancelPred, bne_iff_ne, and_assoc]
  constructor
  · constructor
    · intro hno
      have hq : db.appointments.filter (cancelPred tid id) = [] := by
        apply List.filter_eq_nil_iff.mpr
        intro a ha hp
        exact hno ⟨a, ha, (hpred a).mp hp⟩
      unfold cancelAppointment
      rw [hq]
      rfl
    · intro herr
      rintro ⟨a, ha, hprops⟩
      have hmem : a ∈ db.appointments.filter (cancelPred tid id) :=
        List.mem_filter.mpr ⟨ha, (hpred a).mpr hprops⟩
      unfold cancelAppointment at herr
      rcases hq : db.appointments.filter (cancelPred tid id) with _ | ⟨b, rest⟩
      · rw [hq] at hmem; cases hmem
      · rw [hq] at herr
        simp at herr
  · intro n db' hok
    unfold cancelAppointment at hok
    rcases hq : db.appointments.filter (cancelPred tid id) with _ | ⟨b, rest⟩
    · rw [hq] at hok; simp at hok
    · rw [hq] at hok
      simp only [List.length_cons] at hok
      have hcount : (rest.length + 1 == 0) = false := by simp
      rw [if_neg (by simp)] at hok
      have hdb' : db' = { db with appointments := db.appointments.map (fun a =>
          if cancelPred tid id a then { a with status := Status.CANCELLED, canceledAt := some now }
          else a) } := by
        cases hok
        rfl
      subst hdb'
      refine ⟨?_, ?_, ?_⟩
      · intro a' ha' hid htid
        simp only [List.mem_map] at ha'
        obtain ⟨a, ha, hfa⟩ := ha'
        by_cases hp : cancelPred tid id a = true
        · rw [if_pos hp] at hfa
          rw [← hfa]
        · rw [if_neg hp] at hfa
          subst hfa
          rcases hc : a.status with _ | _ | _ | _ | _ | _ <;> try rfl
          all_goals (exfalso; exact hp ((hpred a).mpr ⟨hid, htid, by rw [hc]; intro hh; cases hh⟩))
      · intro a ha hid htid hst
        have hp : cancelPred tid id a = true := (hpred a).mpr ⟨hid, htid, hst⟩
        refine List.mem_map.mpr ⟨a, ha, ?_⟩
        rw [if_pos hp]
      · intro now2
        have hq2 : (db.appointments.map (fun a =>
            if cancelPred tid id a then { a with status := Status.CANCELLED, canceledAt := some now }
            else a)).filter (cancelPred tid id) = [] := by
          apply List.filter_eq_nil_iff.mpr
          intro a' ha' hp'
          simp only [List.mem_map] at ha'
          obtain ⟨a, ha, hfa⟩ := ha'
          by_cases hp : cancelPred tid id a = true
          · rw [if_pos hp] at hfa
            have := (hpred a').mp hp'
            rw [← hfa] at this
            exact this.2.2 rfl
          · rw [if_neg hp] at hfa
            subst hfa
            exact hp hp'
        unfold cancelAppointment
        simp only [hq2]
        rfl

/-- Witness for C7: after cancelling the booked appointment of `dbExAfter`,
cancelling it a second time fails with the 404 error. -/
theorem cancel_idempotent_c7_witness :
    cancelAppointment dbCancelledEx 1 10 888 = .error cancelNotFoundError :=
  ((cancel_idempotent_c7 dbExAfter 1 10 777).2 1 dbCancelledEx (by decide)).2.2 888


/-- C10: the client existence check of `createAppointment` filters only on
the user's id and `deletedAt: null` — it is insensitive to the tenant
membership table, it passes exactly when a non-deleted user with that id
exists anywhere in the system, and concretely `dbEx` (whose `TenantUser`
table is empty, so user 3 is a member of no tenant at all) still books
user 3 successfully. -/
theorem client_lookup_global_c10 :
    ∀ (db : DB) (cid : Nat) (tus : List TenantUserRow),
      clientLookup { db with tenantUsers := tus } cid = clientLookup db cid ∧
      ((clientLookup db cid).isSome ↔ ∃ u ∈ db.users, u.id = cid ∧ u.deletedAt = none) ∧
      (dbEx.tenantUsers = [] ∧
        createAppointment dbEx 1 0 bodyEx 10 11 = .ok (apptEx, dbExAfter)) := by
  intro db cid tus
  refine ⟨rfl, ?_, by decide, by decide⟩
  rw [clientLookup, List.find?_isSome]
  constructor
  · rintro ⟨u, hu, hp⟩
    simp only [Bool.and_eq_true, beq_iff_eq] at hp
    exact ⟨u, hu, hp.1, by simpa using hp.2⟩
  · rintro ⟨u, hu, h1, h2⟩
    exact ⟨u, hu, by simp [h1, h2]⟩

/-- The `prisma.appointment.update({ where: { id } })` of
`updateAppointment` leaves the tenant-scoped `findFirst` result updated in
place: re-reading the appointment after `applyApptUpdate` yields the looked
up row with exactly the status/start/end/notes rewrites applied. -/
theorem apptLookup_applyApptUpdate :
    ∀ (db : DB) (tid id : Nat) (body : UpdateBody) (ns ne : Time) (a0 : Appointment),
      apptLookup db tid id = some a0 →
      apptLookup (applyApptUpdate db id body ns ne) tid id =
        some { a0 with
          status := body.status.getD a0.status
          start := if body.start.isSome then ns else a0.start
          end_ := if body.start.isSome then ne else a0.end_
          notes := match body.notes with | some v => some v | none => a0.notes } := by
  intro db tid id body ns ne a0
  unfold apptLookup applyApptUpdate
  simp only []
  generalize db.appointments = l
  induction l with
  | nil => intro h; cases h
  | cons a rest ih =>
    intro h
    by_cases hpa : (a.id == id && a.tenantId == tid) = true
    · rw [List.find?_cons_of_pos (p := fun x : Appointment => x.id == id && x.tenantId == tid) _ hpa] at h
      injection h with h
      subst h
      rw [List.map_cons]
      have hid : (a.id == id) = true := by
        simp only [Bool.and_eq_true] at hpa
        exact hpa.1
      rw [if_pos hid]
      apply List.find?_cons_of_pos
      simpa using hpa
    · rw [List.find?_cons_of_neg (p := fun x : Appointment => x.id == id && x.tenantId == tid) _ hpa] at h
      rw [List.map_cons]
      rw [List.find?_cons_of_neg _ ?hpred]
      case hpred =>
        by_cases hid : (a.id == id) = true
        · rw [if_pos hid]
          simp only [Bool.and_eq_true, not_and] at hpa ⊢
          intro _
          exact hpa hid
        · rw [if_neg hid]
          exact hpa
      exact ih h

/-- C9: an `updateAppointment` call supplying neither `start` nor `end`
skips the whole reschedule block: it succeeds for EVERY services,
availabilities and time-offs table (so no duration, availability, blackout
or conflict check can reject it), leaves `start`/`end` unchanged, and
writes any supplied status value without transition validation. -/
theorem status_only_update_c9 :
    ∀ (db : DB) (tid : Nat) (user : ReqUser) (id : Nat) (status : Option Status)
      (notes : Option String) (now : Time) (a0 : Appointment)
      (S : List Service) (A : List Availability) (T : List TimeOff),
      requireTenantRole user ["OWNER", "ADMIN", "STAFF"] = true →
      apptLookup db tid id = some a0 →
      updateAppointment { db with services := S, availabilities := A, timeOffs := T }
          tid user id ⟨status, none, none, notes⟩ now =
        .ok ({ a0 with
            status := status.getD a0.status
            notes := match notes with | some v => some v | none => a0.notes },
          applyApptUpdate { db with services := S, availabilities := A, timeOffs := T }
            id ⟨status, none, none, notes⟩ a0.start a0.end_) := by
  intro db tid user id status notes now a0 S A T hrole hlook
  have hlook2 : apptLookup { db with services := S, availabilities := A, timeOffs := T } tid id
      = some a0 := hlook
  unfold updateAppointment
  simp only [hrole, Bool.not_true, hlook2, Option.isSome_none, Bool.or_self, Bool.false_eq_true,
    if_false]
  rw [apptLookup_applyApptUpdate { db with services := S, availabilities := A, timeOffs := T }
    tid id ⟨status, none, none, notes⟩ a0.start a0.end_ a0 hlook2]
  rfl

/-- Witness for C9: a status-only update to NO_SHOW against emptied
service/availability/time-off tables succeeds and keeps the interval. -/
theorem status_only_update_c9_witness :
    updateAppointment { dbExAfter with services := [], availabilities := [], timeOffs := [] }
        1 ⟨some "OWNER", none⟩ 10 ⟨some .NO_SHOW, none, none, none⟩ 999 =
      .ok ({ apptEx with status := .NO_SHOW },
        applyApptUpdate { dbExAfter with services := [], availabilities := [], timeOffs := [] }
          10 ⟨some .NO_SHOW, none, none, none⟩ apptEx.start apptEx.end_) :=
  status_only_update_c9 dbExAfter 1 ⟨some "OWNER", none⟩ 10 (some .NO_SHOW) none 999 apptEx
    [] [] [] (by decide) (by decide)

/-- JS `appointmentId !== excluded` filter `id: { not: id }`: true for the
`none` (create) site and an id test at the reschedule site. -/
theorem excludePred_iff (ex : Option Nat) (aid : Nat) :
    (match ex with | some k => aid != k | none => true) = true ↔
      ∀ k, ex = some k → aid ≠ k := by
  cases ex with
  | none => simp
  | some k => simp [bne_iff_ne]

/-- The staff double-booking query finds a row iff some appointment of the
tenant and staff, not excluded, with status PENDING or CONFIRMED, strictly
overlaps the candidate. -/
theorem conflict_iff_staff (db : DB) (tid sid : Nat) (st en : Time) (ex : Option Nat) :
    (staffConflictLookup db tid sid st en ex).isSome = true ↔
      ∃ a ∈ db.appointments, a.tenantId = tid ∧ a.staffId = sid ∧
        (∀ k, ex = some k → a.id ≠ k) ∧
        (a.status = .PENDING ∨ a.status = .CONFIRMED) ∧
        a.start < en ∧ st < a.end_ := by
  rw [staffConflictLookup, List.find?_isSome]
  constructor
  · rintro ⟨a, ha, hp⟩
    simp only [Bool.and_eq_true, beq_iff_eq, Bool.or_eq_true, decide_eq_true_eq] at hp
    obtain ⟨⟨⟨⟨h1, h2⟩, h3⟩, h4⟩, h5, h6⟩ := hp
    exact ⟨a, ha, h1, h2, (excludePred_iff ex a.id).mp h3, h4, h5, h6⟩
  · rintro ⟨a, ha, h1, h2, h3, h4, h5, h6⟩
    refine ⟨a, ha, ?_⟩
    simp only [Bool.and_eq_true, beq_iff_eq, Bool.or_eq_true, decide_eq_true_eq]
    exact ⟨⟨⟨⟨h1, h2⟩, (excludePred_iff ex a.id).mpr h3⟩, h4⟩, h5, h6⟩

/-- The client double-booking query, same characterization. -/
theorem conflict_iff_client (db : DB) (tid cid : Nat) (st en : Time) (ex : Option Nat) :
    (clientConflictLookup db tid cid st en ex).isSome = true ↔
      ∃ a ∈ db.appointments, a.tenantId = tid ∧ a.clientId = cid ∧
        (∀ k, ex = some k → a.id ≠ k) ∧
        (a.status = .PENDING ∨ a.status = .CONFIRMED) ∧
        a.start < en ∧ st < a.end_ := by
  rw [clientConflictLookup, List.find?_isSome]
  constructor
  · rintro ⟨a, ha, hp⟩
    simp only [Bool.and_eq_true, beq_iff_eq, Bool.or_eq_true, decide_eq_true_eq] at hp
    obtain ⟨⟨⟨⟨h1, h2⟩, h3⟩, h4⟩, h5, h6⟩ := hp
    exact ⟨a, ha, h1, h2, (excludePred_iff ex a.id).mp h3, h4, h5, h6⟩
  · rintro ⟨a, ha, h1, h2, h3, h4, h5, h6⟩
    refine ⟨a, ha, ?_⟩
    simp only [Bool.and_eq_true, beq_iff_eq, Bool.or_eq_true, decide_eq_true_eq]
    exact ⟨⟨⟨⟨h1, h2⟩, (excludePred_iff ex a.id).mpr h3⟩, h4⟩, h5, h6⟩

/-- A found conflict strictly overlaps: an existing appointment touching
the candidate only at an endpoint is never returned. -/
theorem conflict_found_strict (db : DB) (tid sid : Nat) (st en : Time) (ex : Option Nat)
    (a : Appointment) :
    staffConflictLookup db tid sid st en ex = some a →
    a.start < en ∧ st < a.end_ ∧ a.end_ ≠ st ∧ a.start ≠ en := by
  intro h
  have hp := List.find?_some h
  simp only [Bool.and_eq_true, decide_eq_true_eq] at hp
  obtain ⟨-, h5, h6⟩ := hp
  exact ⟨h5, h6, fun hh => absurd (hh ▸ h6) (lt_irrefl st), fun hh => absurd (hh ▸ h5) (lt_irrefl en)⟩

/-- When every earlier check passes and the staff conflict query finds a
row, `createAppointment` throws the staff 409. -/
theorem create_rejects_staff_conflict (db : DB) (tid : Nat) (now : Time)
    (sid stf cid : Nat) (st en : Time) (nts : Option String) (i j : Nat) (service : Service) :
    ¬ en ≤ st → ¬ st < now →
    serviceLookup db tid sid = some service →
    (staffLookup db tid stf).isSome = true →
    (clientLookup db cid).isSome = true →
    (assignedLookup db stf sid).isSome = true →
    st + service.duration * 60000 = en →
    validateStaffAvailabilityAndTimeOff db tid stf st en = .ok () →
    (staffConflictLookup db tid stf st en none).isSome = true →
    createAppointment db tid now ⟨some sid, some stf, some cid, some st, some en, nts⟩ i j =
      .error ⟨409, "Staff already booked for this time slot"⟩ := by
  intro hle hpast hserv hstf hcli hasg hdur hval hsc
  obtain ⟨strow, hstf'⟩ := Option.isSome_iff_exists.mp hstf
  obtain ⟨crow, hcli'⟩ := Option.isSome_iff_exists.mp hcli
  obtain ⟨asg, hasg'⟩ := Option.isSome_iff_exists.mp hasg
  obtain ⟨cfa, hsc'⟩ := Option.isSome_iff_exists.mp hsc
  simp only [createAppointment, hserv, hstf', hcli', hasg', hval, hsc']
  rw [if_neg hle, if_neg hpast, if_neg (fun hh => hh hdur)]

/-- When every earlier check passes, the staff query is clear and the
client conflict query finds a row, `createAppointment` throws the client
409. -/
theorem create_rejects_client_conflict (db : DB) (tid : Nat) (now : Time)
    (sid stf cid : Nat) (st en : Time) (nts : Option String) (i j : Nat) (service : Service) :
    ¬ en ≤ st → ¬ st < now →
    serviceLookup db tid sid = some service →
    (staffLookup db tid stf).isSome = true →
    (clientLookup db cid).isSome = true →
    (assignedLookup db stf sid).isSome = true →
    st + service.duration * 60000 = en →
    validateStaffAvailabilityAndTimeOff db tid stf st en = .ok () →
    staffConflictLookup db tid stf st en none = none →
    (clientConflictLookup db tid cid st en none).isSome = true →
    createAppointment db tid now ⟨some sid, some stf, some cid, some st, some en, nts⟩ i j =
      .error ⟨409, "Client already has an appointment in this time slot"⟩ := by
  intro hle hpast hserv hstf hcli hasg hdur hval hsc hcc
  obtain ⟨strow, hstf'⟩ := Option.isSome_iff_exists.mp hstf
  obtain ⟨crow, hcli'⟩ := Option.isSome_iff_exists.mp hcli
  obtain ⟨asg, hasg'⟩ := Option.isSome_iff_exists.mp hasg
  obtain ⟨cfa, hcc'⟩ := Option.isSome_iff_exists.mp hcc
  simp only [createAppointment, hserv, hstf', hcli', hasg', hval, hsc, hcc']
  rw [if_neg hle, if_neg hpast, if_neg (fun hh => hh hdur)]

/-- A successful `createAppointment` returns an appointment whose interval
length is exactly the looked-up service's duration in minutes, and appends
exactly that appointment to the store. -/
theorem create_ok_duration (db : DB) (tid : Nat) (now : Time) (body : CreateBody)
    (i j : Nat) (appt : Appointment) (db' : DB) :
    createAppointment db tid now body i j = .ok (appt, db') →
    ∃ sid service, body.serviceId = some sid ∧ serviceLookup db tid sid = some service ∧
      appt.end_ = appt.start + service.duration * 60000 ∧
      db'.appointments = db.appointments ++ [appt] := by
  intro h
  obtain ⟨sido, stfo, cido, sto, eno, nts⟩ := body
  cases sido with
  | none => exact Except.noConfusion h
  | some sid =>
  cases stfo with
  | none => exact Except.noConfusion h
  | some stf =>
  cases cido with
  | none => exact Except.noConfusion h
  | some cid =>
  cases sto with
  | none => exact Except.noConfusion h
  | some st =>
  cases eno with
  | none => exact Except.noConfusion h
  | some en =>
  simp only [createAppointment] at h
  split at h
  · exact Except.noConfusion h
  · split at h
    · exact Except.noConfusion h
    · split at h
      · exact Except.noConfusion h
      · split at h
        · exact Except.noConfusion h
        · split at h
          · exact Except.noConfusion h
          · split at h
            · exact Except.noConfusion h
            · split at h
              · exact Except.noConfusion h
              · split at h
                · exact Except.noConfusion h
                · split at h
                  · exact Except.noConfusion h
                  · split at h
                    · exact Except.noConfusion h
                    · rename_i hle hpast x1 svc hserv x2 strow hstf x3 crow hcli
                        x4 asg hasg hdur x5 u hval x6 hsc x7 hcc
                      injection h with h1
                      rw [Prod.mk.injEq] at h1
                      obtain ⟨ha, hb⟩ := h1
                      refine ⟨sid, svc, rfl, hserv, ?_, ?_⟩
                      · rw [← ha]
                        exact (not_not.mp hdur).symm
                      · rw [← ha, ← hb]

/-- A successful reschedule (`updateAppointment` with `start` supplied)
leaves an appointment whose interval length is exactly its service's
duration in minutes. -/
theorem update_ok_duration (db : DB) (tid : Nat) (user : ReqUser) (id : Nat)
    (body : UpdateBody) (now : Time) (appt : Appointment) (db' : DB) :
    body.start.isSome = true →
    updateAppointment db tid user id body now = .ok (appt, db') →
    ∃ service, rescheduleServiceLookup db appt.serviceId = some service ∧
      appt.end_ = appt.start + service.duration * 60000 := by
  intro hs h
  obtain ⟨sts, sto, eno, nts⟩ := body
  cases sto with
  | none => exact absurd hs (by simp)
  | some ns =>
  cases eno with
  | none =>
    simp only [updateAppointment] at h
    split at h
    · exact Except.noConfusion h
    · split at h
      · exact Except.noConfusion h
      · split at h
        · exact Except.noConfusion h
        · rename_i hor
          exact absurd rfl hor
  | some ne =>
  simp only [updateAppointment] at h
  split at h
  · exact Except.noConfusion h
  · split at h
    · exact Except.noConfusion h
    · rename_i hrole0 x0 a0 hlook
      split at h
      · split at h
        · exact Except.noConfusion h
        · split at h
          · exact Except.noConfusion h
          · split at h
            · exact Except.noConfusion h
            · split at h
              · exact Except.noConfusion h
              · split at h
                · exact Except.noConfusion h
                · split at h
                  · exact Except.noConfusion h
                  · split at h
                    · exact Except.noConfusion h
                    · split at h
                      · rename_i hor hle hpast x1 svc hsvc hdur x2 u hval x3 hsc
                          x4 hcc x5 upd hupd
                        injection h with h1
                        rw [Prod.mk.injEq] at h1
                        obtain ⟨ha, hb⟩ := h1
                        have hre := apptLookup_applyApptUpdate db tid id
                          ⟨sts, some ns, some ne, nts⟩ ns ne a0 hlook
                        rw [hupd] at hre
                        injection hre with hre
                        subst ha
                        rw [hre]
                        exact ⟨svc, hsvc, (not_not.mp hdur).symm⟩
                      · exact Except.noConfusion h
      · rename_i hor
        exact absurd rfl hor

/-- With all lookups passing and the supplied `end` differing from
`start + service.duration` minutes, `createAppointment` throws the 400
stating the expected duration. -/
theorem create_rejects_bad_duration (db : DB) (tid : Nat) (now : Time)
    (sid stf cid : Nat) (st en : Time) (nts : Option String) (i j : Nat) (service : Service) :
    ¬ en ≤ st → ¬ st < now →
    serviceLookup db tid sid = some service →
    (staffLookup db tid stf).isSome = true →
    (clientLookup db cid).isSome = true →
    (assignedLookup db stf sid).isSome = true →
    st + service.duration * 60000 ≠ en →
    createAppointment db tid now ⟨some sid, some stf, some cid, some st, some en, nts⟩ i j =
      .error (durationError service.duration) := by
  intro hle hpast hserv hstf hcli hasg hdur
  obtain ⟨strow, hstf'⟩ := Option.isSome_iff_exists.mp hstf
  obtain ⟨crow, hcli'⟩ := Option.isSome_iff_exists.mp hcli
  obtain ⟨asg, hasg'⟩ := Option.isSome_iff_exists.mp hasg
  simp only [createAppointment, hserv, hstf', hcli', hasg']
  rw [if_neg hle, if_neg hpast, if_pos hdur]

/-- The reschedule analogue of the duration rejection. -/
theorem update_rejects_bad_duration (db : DB) (tid : Nat) (user : ReqUser) (id : Nat)
    (ns ne : Time) (sts : Option Status) (nts : Option String) (now : Time)
    (a0 : Appointment) (service : Service) :
    requireTenantRole user ["OWNER", "ADMIN", "STAFF"] = true →
    apptLookup db tid id = some a0 →
    ¬ ne ≤ ns → ¬ ns < now →
    rescheduleServiceLookup db a0.serviceId = some service →
    ns + service.duration * 60000 ≠ ne →
    updateAppointment db tid user id ⟨sts, some ns, some ne, nts⟩ now =
      .error (rescheduleDurationError service.duration) := by
  intro hrole hlook hle hpast hsvc hdur
  simp only [updateAppointment, hrole, Bool.not_true, Bool.false_eq_true, if_false, hlook,
    Option.isSome_some, Bool.or_self, if_true, hsvc]
  rw [if_neg hle, if_neg hpast, if_pos hdur]

/-- C1: every appointment successfully created or rescheduled satisfies
`end - start = service.duration` minutes exactly (and a successful create
writes exactly the returned appointment); when the supplied end differs
from start plus the service's duration, the call is rejected — before any
write — with the error stating the expected duration. -/
theorem duration_law_c1 :
    (∀ (db : DB) (tid : Nat) (now : Time) (body : CreateBody) (i j : Nat)
        (appt : Appointment) (db' : DB),
      createAppointment db tid now body i j = .ok (appt, db') →
      ∃ sid service, body.serviceId = some sid ∧ serviceLookup db tid sid = some service ∧
        appt.end_ = appt.start + service.duration * 60000 ∧
        db'.appointments = db.appointments ++ [appt]) ∧
    (∀ (db : DB) (tid : Nat) (user : ReqUser) (id : Nat) (body : UpdateBody) (now : Time)
        (appt : Appointment) (db' : DB),
      body.start.isSome = true →
      updateAppointment db tid user id body now = .ok (appt, db') →
      ∃ service, rescheduleServiceLookup db appt.serviceId = some service ∧
        appt.end_ = appt.start + service.duration * 60000) ∧
    (∀ (db : DB) (tid : Nat) (now : Time) (sid stf cid : Nat) (st en : Time)
        (nts : Option String) (i j : Nat) (service : Service),
      ¬ en ≤ st → ¬ st < now →
      serviceLookup db tid sid = some service →
      (staffLookup db tid stf).isSome = true →
      (clientLookup db cid).isSome = true →
      (assignedLookup db stf sid).isSome = true →
      st + service.duration * 60000 ≠ en →
      createAppointment db tid now ⟨some sid, some stf, some cid, some st, some en, nts⟩ i j =
        .error (durationError service.duration)) ∧
    (∀ (db : DB) (tid : Nat) (user : ReqUser) (id : Nat) (ns ne : Time) (sts : Option Status)
        (nts : Option String) (now : Time) (a0 : Appointment) (service : Service),
      requireTenantRole user ["OWNER", "ADMIN", "STAFF"] = true →
      apptLookup db tid id = some a0 →
      ¬ ne ≤ ns → ¬ ns < now →
      rescheduleServiceLookup db a0.serviceId = some service →
      ns + service.duration * 60000 ≠ ne →
      updateAppointment db tid user id ⟨sts, some ns, some ne, nts⟩ now =
        .error (rescheduleDurationError service.duration)) :=
  ⟨create_ok_duration, update_ok_duration, create_rejects_bad_duration,
   update_rejects_bad_duration⟩

/-- Witness for C1 at the concrete successful booking. -/
theorem duration_law_c1_witness :
    ∃ sid service, bodyEx.serviceId = some sid ∧ serviceLookup dbEx 1 sid = some service ∧
      apptEx.end_ = apptEx.start + service.duration * 60000 ∧
      dbExAfter.appointments = dbEx.appointments ++ [apptEx] :=
  duration_law_c1.1 dbEx 1 0 bodyEx 10 11 apptEx dbExAfter (by decide)

/-- C2: the conflict check finds a conflict iff some existing appointment
of the same tenant and subject (staff resp. client), with status PENDING
or CONFIRMED and id different from any excluded appointment, strictly
overlaps (`existing.start < cand.end AND existing.end > cand.start`);
touching endpoints never conflict, and a booking is rejected when the
staff check — or, with the staff check clear, the client check — finds a
conflict. -/
theorem conflict_detector_c2 :
    (∀ (db : DB) (tid sid : Nat) (st en : Time) (ex : Option Nat),
      (staffConflictLookup db tid sid st en ex).isSome = true ↔
        ∃ a ∈ db.appointments, a.tenantId = tid ∧ a.staffId = sid ∧
          (∀ k, ex = some k → a.id ≠ k) ∧
          (a.status = .PENDING ∨ a.status = .CONFIRMED) ∧
          a.start < en ∧ st < a.end_) ∧
    (∀ (db : DB) (tid cid : Nat) (st en : Time) (ex : Option Nat),
      (clientConflictLookup db tid cid st en ex).isSome = true ↔
        ∃ a ∈ db.appointments, a.tenantId = tid ∧ a.clientId = cid ∧
          (∀ k, ex = some k → a.id ≠ k) ∧
          (a.status = .PENDING ∨ a.status = .CONFIRMED) ∧
          a.start < en ∧ st < a.end_) ∧
    (∀ (db : DB) (tid sid : Nat) (st en : Time) (ex : Option Nat) (a : Appointment),
      staffConflictLookup db tid sid st en ex = some a →
      a.start < en ∧ st < a.end_ ∧ a.end_ ≠ st ∧ a.start ≠ en) ∧
    (∀ (db : DB) (tid : Nat) (now : Time) (sid stf cid : Nat) (st en : Time)
        (nts : Option String) (i j : Nat) (service : Service),
      ¬ en ≤ st → ¬ st < now →
      serviceLookup db tid sid = some service →
      (staffLookup db tid stf).isSome = true →
      (clientLookup db cid).isSome = true →
      (assignedLookup db stf sid).isSome = true →
      st + service.duration * 60000 = en →
      validateStaffAvailabilityAndTimeOff db tid stf st en = .ok () →
      (staffConflictLookup db tid stf st en none).isSome = true →
      createAppointment db tid now ⟨some sid, some stf, some cid, some st, some en, nts⟩ i j =
        .error ⟨409, "Staff already booked for this time slot"⟩) ∧
    (∀ (db : DB) (tid : Nat) (now : Time) (sid stf cid : Nat) (st en : Time)
        (nts : Option String) (i j : Nat) (service : Service),
      ¬ en ≤ st → ¬ st < now →
      serviceLookup db tid sid = some service →
      (staffLookup db tid stf).isSome = true →
      (clientLookup db cid).isSome = true →
      (assignedLookup db stf sid).isSome = true →
      st + service.duration * 60000 = en →
      validateStaffAvailabilityAndTimeOff db tid stf st en = .ok () →
      staffConflictLookup db tid stf st en none = none →
      (clientConflictLookup db tid cid st en none).isSome = true →
      createAppointment db tid now ⟨some sid, some stf, some cid, some st, some en, nts⟩ i j =
        .error ⟨409, "Client already has an appointment in this time slot"⟩) :=
  ⟨conflict_iff_staff, conflict_iff_client, conflict_found_strict,
   create_rejects_staff_conflict, create_rejects_client_conflict⟩

/-- Witness for C2: booking the already-booked 09:00-09:30 slot of staff 2
is rejected with the staff-conflict 409. -/
theorem conflict_detector_c2_witness :
    createAppointment dbExAfter 1 0 bodyEx 12 13 =
      .error ⟨409, "Staff already booked for this time slot"⟩ :=
  conflict_detector_c2.2.2.2.1 dbExAfter 1 0 1 2 3 1000000000000 1000001800000 none 12 13 svcEx
    (by decide) (by decide) (by decide) (by decide) (by decide) (by decide) (by decide)
    (by decide) (by decide)

end Booking
